import Mathlib

/-!
Verification of the Intelligent-Video-Processing-and-Knowledge-Enrichment-System
repository against its natural-language specification.

The development shallowly embeds the three cores of the repository:

* `src/kg_pipeline/client_logger.py` — the event classifier / deduplicator
  (`clean_result`, `log_event`): Python values become the inductive `PyVal`,
  `str()` / `repr()` become `pyStr` / `pyRepr`, and the hidden function
  attribute `log_event._last_tool_result` becomes explicit state of type
  `Option String` threaded through `log_event`.
* `src/mcp/YouTube_MCP_Autogen_based_client.py` — the retrying connector
  (`RetryingMCPClient.connect` / `get_tools`): the underlying
  `mcp_server_tools` call becomes an oracle `Nat → AttemptOut` indexed by the
  attempt number; `connect` returns the raw result (`Option` because a
  `max_retries = 0` loop falls through and returns Python `None`), the number
  of underlying calls made, and the list of waits performed.
* `src/mcp/Youtube_mcp_server.py` — the acquisition pipeline
  (`is_video_downloaded`, `download_video`, `download_transcript`,
  `fetch_metadata`, `generate_summary`, `ensure_video_content`,
  `summarize_youtube_video`): the filesystem state for one content item
  becomes the four artifact slots of `FS`, external collaborators become the
  per-stage outcomes recorded in `Oracle`, and each stage returns its result,
  the new filesystem state, per-collaborator call counts and the log lines it
  writes.
-/

/-! ## Python value model (payloads handled by `clean_result`) -/

/-- Python values as they occur in event payloads: strings, ints, booleans,
`None`, lists and string-keyed dicts (`json.loads` output shapes). -/
inductive PyVal where
  | str (s : String)
  | int (n : Int)
  | bool (b : Bool)
  | none
  | list (xs : List PyVal)
  | dict (entries : List (String × PyVal))

/-- First-match association lookup: Python `d[k]` / `k in d` on a dict whose
entries are listed in insertion order (keys unique in a real dict). -/
def dlookup (es : List (String × PyVal)) (k : String) : Option PyVal :=
  match es with
  | [] => Option.none
  | (k2, v) :: rest => if k2 = k then Option.some v else dlookup rest k

/-- Python whitespace for `str.strip()`: space, tab, newline, carriage
return, vertical tab, form feed. -/
def pyIsSpace (c : Char) : Bool :=
  c = ' ' || c = '\t' || c = '\n' || c = '\r' || c = '\x0b' || c = '\x0c'

/-- Python `str.strip()`: drop leading and trailing whitespace. -/
def pyStrip (s : String) : String :=
  String.mk (((s.data.dropWhile pyIsSpace).reverse.dropWhile pyIsSpace).reverse)

/-- The single-quote character used by Python `repr` of strings. -/
def pyQuote : Char := Char.ofNat 39

/-- Escaping of one character inside a Python string repr (backslash and the
quote character; other characters unchanged). -/
def pyEscapeChar (c : Char) : String :=
  if c = Char.ofNat 92 then String.mk [Char.ofNat 92, Char.ofNat 92]
  else if c = pyQuote then String.mk [Char.ofNat 92, pyQuote]
  else String.singleton c

/-- Python `repr` of a string: quoted and escaped. -/
def pyReprStr (s : String) : String :=
  String.singleton pyQuote ++ String.join (s.data.map pyEscapeChar) ++ String.singleton pyQuote

mutual

/-- Python `repr` of a value. -/
def pyRepr : PyVal → String
  | .str s => pyReprStr s
  | .int n => toString n
  | .bool b => if b then "True" else "False"
  | .none => "None"
  | .list xs => "[" ++ pyReprSeq xs ++ "]"
  | .dict es => "\x7b" ++ pyReprDict es ++ "\x7d"

/-- Python repr of list items joined by ", ". -/
def pyReprSeq : List PyVal → String
  | [] => ""
  | [x] => pyRepr x
  | x :: y :: xs => pyRepr x ++ ", " ++ pyReprSeq (y :: xs)

/-- Python repr of dict entries joined by ", ". -/
def pyReprDict : List (String × PyVal) → String
  | [] => ""
  | [(k, v)] => pyReprStr k ++ ": " ++ pyRepr v
  | (k, v) :: e :: es => pyReprStr k ++ ": " ++ pyRepr v ++ ", " ++ pyReprDict (e :: es)

end

/-- Python `str()`: identity on strings, `repr`-based rendering otherwise. -/
def pyStr : PyVal → String
  | .str s => s
  | v => pyRepr v

/-- The string-valued members of a dict, in order:
`[str(v) for v in result.values() if isinstance(v, str)]`. -/
def stringMembers (es : List (String × PyVal)) : List String :=
  es.filterMap (fun p => match p.2 with | .str s => Option.some s | _ => Option.none)

/-- Python `"\n".join(strs)`. -/
def joinNL : List String → String
  | [] => ""
  | [x] => x
  | x :: y :: xs => x ++ "\n" ++ joinNL (y :: xs)

/-- Fallback branches of `clean_result` for a dict with no `content` key:
use the `text` member if present, else join the string-valued members. -/
def dictTextOrMembers (es : List (String × PyVal)) : String :=
  match dlookup es "text" with
  | Option.some v => pyStr v
  | Option.none => joinNL (stringMembers es)

mutual

/-- `clean_result` from `client_logger.py`: recursive flattening of a payload
into display text.  Dicts check `content` (list: recursive join; scalar:
stringify), then `text`, then join their string members; lists are flattened
recursively; strings are stripped; anything else is stringified. -/
def clean_result : PyVal → String
  | .dict es => cleanDict es es
  | .list xs => cleanSeq xs
  | .str s => pyStrip s
  | .int n => pyStr (.int n)
  | .bool b => pyStr (.bool b)
  | .none => pyStr .none

/-- Handling of the value found under the `content` key:
a list is flattened recursively, a scalar is stringified. -/
def cleanContentVal : PyVal → String
  | .list xs => cleanSeq xs
  | v => pyStr v

/-- Walk of the dict entries looking for the first `content` key (`full`
carries the whole dict for the no-`content` fallback branches). -/
def cleanDict : List (String × PyVal) → List (String × PyVal) → String
  | full, [] => dictTextOrMembers full
  | full, (k, v) :: rest =>
    if k = "content" then cleanContentVal v else cleanDict full rest

/-- `"\n".join([clean_result(item) for item in items])`. -/
def cleanSeq : List PyVal → String
  | [] => ""
  | [x] => clean_result x
  | x :: y :: xs => clean_result x ++ "\n" ++ cleanSeq (y :: xs)

end

/-! ## Event classifier and deduplicator (`log_event`) -/

/-- A raw stream event as `log_event` sees it: `strRepr` is Python
`str(event)` (used for the substring-based kind checks and for the fallback
flattening), and `parsed` is the outcome of the `json.loads` try-block of
step 1 — `some v` when parsing the event content succeeded with value `v`,
`none` when it raised. -/
structure Event where
  strRepr : String
  parsed : Option PyVal

/-- Whether `pat` starts the character list `s`. -/
def charsPrefix : List Char → List Char → Bool
  | [], _ => true
  | _ :: _, [] => false
  | a :: as, b :: bs => a = b && charsPrefix as bs

/-- Whether `pat` occurs contiguously somewhere inside `s`. -/
def charsInfix : List Char → List Char → Bool
  | pat, [] => pat.isEmpty
  | pat, c :: rest => charsPrefix pat (c :: rest) || charsInfix pat rest

/-- Substring containment test, Python `pat in s`. -/
def containsStr (s pat : String) : Bool := charsInfix pat.data s.data

/-- The `clean` text computed in step 1 of `log_event`: the flattening of the
parsed payload, or of the raw string representation when parsing failed. -/
def cleanOf (e : Event) : String :=
  match e.parsed with
  | Option.some v => clean_result v
  | Option.none => clean_result (.str e.strRepr)

/-- What one `log_event` call did: the new value of the hidden
`log_event._last_tool_result` slot, the lines printed to the console, and the
lines written to the durable log. -/
structure LogStep where
  last : Option String
  console : List String
  logLines : List String
deriving DecidableEq

/-- Shared tail of `log_event`: print `"\n" + msg` when console output is
enabled and append `msg` to the durable log. -/
def emitStep (printToConsole : Bool) (last : Option String) (msg : String) : LogStep :=
  ⟨last, if printToConsole then ["\n" ++ msg] else [], [msg]⟩

/-- Branch guard: the event reaches the `ToolCallExecutionEvent` arm of
`log_event` (none of the earlier substring checks fired). -/
def isExecBranch (e : Event) : Bool :=
  !containsStr e.strRepr "UserInputRequestedEvent" &&
  !containsStr e.strRepr "ToolCallRequestEvent" &&
  containsStr e.strRepr "ToolCallExecutionEvent"

/-- Branch guard: the event reaches the `ToolCallSummaryMessage` arm of
`log_event`. -/
def isSummaryBranch (e : Event) : Bool :=
  !containsStr e.strRepr "UserInputRequestedEvent" &&
  !containsStr e.strRepr "ToolCallRequestEvent" &&
  !containsStr e.strRepr "ToolCallExecutionEvent" &&
  containsStr e.strRepr "ToolCallSummaryMessage"

/-- `log_event` from `client_logger.py`.  The hidden function attribute
`log_event._last_tool_result` is made explicit as the `last` argument;
the returned `LogStep` carries its new value together with the console and
durable-log output of this call.  The two tool-result arms compare `clean`
against the one shared slot and on equality return early, suppressing both
outputs; otherwise they update the slot and emit with their marker. -/
def log_event (printToConsole : Bool) (last : Option String) (e : Event) : LogStep :=
  let clean := cleanOf e
  if containsStr e.strRepr "UserInputRequestedEvent" then
    emitStep printToConsole last "[System]: Waiting for user input..."
  else if containsStr e.strRepr "ToolCallRequestEvent" then
    emitStep printToConsole last "[System]: Calling tool..."
  else if containsStr e.strRepr "ToolCallExecutionEvent" then
    if last = Option.some clean then ⟨last, [], []⟩
    else emitStep printToConsole (Option.some clean) ("📡 " ++ clean)
  else if containsStr e.strRepr "ToolCallSummaryMessage" then
    if last = Option.some clean then ⟨last, [], []⟩
    else emitStep printToConsole (Option.some clean) ("✅ " ++ clean)
  else if containsStr e.strRepr "TextMessage" then
    emitStep printToConsole last clean
  else if containsStr e.strRepr "TaskResult" then
    emitStep printToConsole last "[System]: Task completed."
  else
    emitStep printToConsole last clean

/-- Processing of a whole event stream through `log_event`, threading the
shared dedup slot and concatenating the console and durable-log output. -/
def runLog (printToConsole : Bool) : Option String → List Event → LogStep
  | last, [] => ⟨last, [], []⟩
  | last, e :: es =>
    let s := log_event printToConsole last e
    let r := runLog printToConsole s.last es
    ⟨r.last, s.console ++ r.console, s.logLines ++ r.logLines⟩

/-! ## Retrying connector (`RetryingMCPClient` in the Autogen-based client) -/

namespace RetryingMCPClient

/-- Outcome of one underlying `mcp_server_tools(server_params)` call:
either the discovered capability (tool) list or a raised error. -/
inductive AttemptOut where
  | ok (caps : List String)
  | fail (e : String)

/-- The `for attempt in range(1, max_retries + 1)` loop of `connect`,
driven by an oracle giving the outcome of the underlying call at each
attempt number.  `rest` is the number of loop iterations still allowed
(including the current one); the first component of the result is `none`
when the loop range is exhausted without a `return` or `raise` (Python
falls through and returns `None`), the second is the number of underlying
calls made, and the third the list of `retry_delay` waits performed. -/
def connectGo {α : Type} (oracle : Nat → AttemptOut) (delay : α) :
    Nat → Nat → Option (Except String (List String)) × Nat × List α
  | _, 0 => (Option.none, 0, [])
  | attempt, rest + 1 =>
    match oracle attempt with
    | .ok caps => (Option.some (.ok caps), 1, [])
    | .fail e =>
      if rest = 0 then (Option.some (.error e), 1, [])
      else
        let r := connectGo oracle delay (attempt + 1) rest
        (r.1, r.2.1 + 1, delay :: r.2.2)

/-- `RetryingMCPClient.connect`: run the attempt loop starting at attempt 1
with `max_retries` iterations allowed; on success return the capability list
immediately, on the final failure re-raise the last underlying error
(after a `retry_delay` wait between consecutive failed attempts only). -/
def connect {α : Type} (oracle : Nat → AttemptOut) (maxRetries : Nat) (delay : α) :
    Option (Except String (List String)) × Nat × List α :=
  connectGo oracle delay 1 maxRetries

/-- The `self.tools` cache after a `connect` call: assigned exactly when the
underlying call succeeded (the assignment in the source precedes the
`return`), left at its previous value on failure or fall-through. -/
def toolsAfterConnect {α : Type} (tools0 : Option (List String))
    (oracle : Nat → AttemptOut) (maxRetries : Nat) (delay : α) : Option (List String) :=
  match (connect oracle maxRetries delay).1 with
  | Option.some (.ok caps) => Option.some caps
  | _ => tools0

/-- Python truthiness of `self.tools` (a `None`-or-list field):
`None` and the empty list are falsy. -/
def pyTruthyTools : Option (List String) → Bool
  | Option.none => false
  | Option.some ts => !ts.isEmpty

/-- `RetryingMCPClient.get_tools`: `if not self.tools: raise RuntimeError(...)`,
else return the cached list.  The guard tests truthiness of the cached list,
so an empty cached list is treated as not connected. -/
def get_tools (tools : Option (List String)) : Except String (List String) :=
  if pyTruthyTools tools then
    match tools with
    | Option.some ts => .ok ts
    | Option.none => .error "Not connected to MCP server. Call connect() first."
  else .error "Not connected to MCP server. Call connect() first."

end RetryingMCPClient

/-! ## Acquisition pipeline (`Youtube_mcp_server.py`) -/

/-- The artifact slots of one content item's directory: presence of the
media file `{id}.mkv`, the transcript `{id}_transcript.txt`, the metadata
`{id}_metadata.json`, and the summary `{id}.json` (whose written text is
kept, to state what was persisted). -/
structure FS where
  media : Bool
  transcript : Bool
  metadata : Bool
  summary : Option String
deriving DecidableEq

/-- Number of invocations of each external collaborator: the `yt-dlp`
download subprocess, the transcript API, the metadata HTTP API, and the
summary-generation (Gemini) API. -/
structure Calls where
  dl : Nat
  tr : Nat
  md : Nat
  sm : Nat
deriving DecidableEq

/-- No collaborator calls. -/
def Calls.zero : Calls := ⟨0, 0, 0, 0⟩

/-- Componentwise sum of call counts. -/
def Calls.add (a b : Calls) : Calls := ⟨a.dl + b.dl, a.tr + b.tr, a.md + b.md, a.sm + b.sm⟩

/-- Outcome of the `yt-dlp` download subprocess. -/
inductive DlOut where
  | ok
  | err (msg : String)

/-- Outcome of `YouTubeTranscriptApi.get_transcript`: success,
`TranscriptsDisabled`/`NoTranscriptFound` (transcript unavailable), or any
other exception. -/
inductive TrOut where
  | ok
  | unavailable (msg : String)
  | err (msg : String)

/-- Outcome of the metadata HTTP request. -/
inductive MdOut where
  | ok
  | err (msg : String)

/-- Outcome of the Gemini summary call: the extracted candidate text, or a
failure (HTTP error, no candidates, ...). -/
inductive SmOut where
  | ok (text : String)
  | err (msg : String)

/-- External-collaborator behaviour during one pipeline run.  Each stage
function calls its collaborator at most once per run, so one outcome per
collaborator suffices; `ytDlpInstalled` models `check_yt_dlp_installed` and
`templateExists` the prompt-template existence check. -/
structure Oracle where
  dl : DlOut
  tr : TrOut
  md : MdOut
  sm : SmOut
  ytDlpInstalled : Bool
  templateExists : Bool

/-- Logging levels of the server logger. -/
inductive Lvl where
  | debug
  | info
  | warning
  | error
deriving DecidableEq

/-- One log line: level and message. -/
abbrev LogLine := Lvl × String

/-- Result of one stage function (or of the whole pipeline): the value
returned or the exception raised, the filesystem state afterwards, the
collaborator calls made, and the log lines written. -/
structure StageResult (A : Type) where
  res : Except String A
  fs : FS
  calls : Calls
  logs : List LogLine

/-- `is_video_downloaded`: the `os.walk` scan of the output root finds a
directory containing `{id}.mkv` exactly when the media artifact exists. -/
def is_video_downloaded (fs : FS) : Bool := fs.media

/-- `download_video`: raise if `yt-dlp` is missing; return early if the
media file already exists; otherwise run the download subprocess once and
either record the media artifact or raise a wrapped error. -/
def download_video (vid : String) (fs : FS) (o : Oracle) : StageResult String :=
  if !o.ytDlpInstalled then
    ⟨.error "yt-dlp is not installed or not available in PATH", fs, Calls.zero,
      [(.error, "yt-dlp not found. Please install it with: pip install yt-dlp")]⟩
  else if fs.media then
    ⟨.ok (vid ++ ".mkv"), fs, Calls.zero, [(.info, "Video already exists for " ++ vid)]⟩
  else
    match o.dl with
    | .ok =>
      ⟨.ok (vid ++ ".mkv"), { fs with media := true }, ⟨1, 0, 0, 0⟩,
        [(.info, "Download completed for " ++ vid)]⟩
    | .err m =>
      ⟨.error ("Failed to download video " ++ vid ++ ": " ++ m), fs, ⟨1, 0, 0, 0⟩,
        [(.error, "yt-dlp failed for " ++ vid ++ ": " ++ m)]⟩

/-- `download_transcript`: return early if the transcript file exists;
otherwise call the transcript API once.  Unavailability
(`TranscriptsDisabled` / `NoTranscriptFound`) is logged as a warning and
returns `None`; any other exception is logged as an error and returns
`None`; neither raises. -/
def download_transcript (vid : String) (fs : FS) (o : Oracle) : StageResult (Option String) :=
  if fs.transcript then
    ⟨.ok (Option.some (vid ++ "_transcript.txt")), fs, Calls.zero,
      [(.info, "Transcript already exists for " ++ vid)]⟩
  else
    match o.tr with
    | .ok =>
      ⟨.ok (Option.some (vid ++ "_transcript.txt")), { fs with transcript := true },
        ⟨0, 1, 0, 0⟩, [(.info, "Transcript downloaded for " ++ vid)]⟩
    | .unavailable m =>
      ⟨.ok Option.none, fs, ⟨0, 1, 0, 0⟩,
        [(.warning, "No transcript available for " ++ vid ++ ": " ++ m)]⟩
    | .err m =>
      ⟨.ok Option.none, fs, ⟨0, 1, 0, 0⟩,
        [(.error, "Error downloading transcript for " ++ vid ++ ": " ++ m)]⟩

/-- `fetch_metadata`: return early if the metadata file exists; otherwise
call the metadata API once, writing the file on success and raising a
wrapped error on failure. -/
def fetch_metadata (vid : String) (fs : FS) (o : Oracle) : StageResult String :=
  if fs.metadata then
    ⟨.ok (vid ++ "_metadata.json"), fs, Calls.zero,
      [(.info, "Metadata already exists for " ++ vid)]⟩
  else
    match o.md with
    | .ok =>
      ⟨.ok (vid ++ "_metadata.json"), { fs with metadata := true }, ⟨0, 0, 1, 0⟩,
        [(.info, "Metadata saved for " ++ vid)]⟩
    | .err m =>
      ⟨.error ("Failed to fetch video metadata: " ++ m), fs, ⟨0, 0, 1, 0⟩,
        [(.error, "API request failed for video " ++ vid ++ ": " ++ m)]⟩

/-- `generate_summary`: return early if `{id}.json` exists; otherwise load
the metadata file (raising, wrapped, if it is absent), check the prompt
template, call the Gemini API once, and write the extracted candidate text
to `{id}.json` verbatim.  Every raised exception is wrapped into
"Failed to generate summary: ...". -/
def generate_summary (vid : String) (fs : FS) (o : Oracle) : StageResult String :=
  if fs.summary.isSome then
    ⟨.ok (vid ++ ".json"), fs, Calls.zero, [(.info, "Summary already exists for " ++ vid)]⟩
  else if !fs.metadata then
    ⟨.error "Failed to generate summary: metadata file not found", fs, Calls.zero,
      [(.error, "Failed to generate summary for " ++ vid)]⟩
  else if !o.templateExists then
    ⟨.error "Failed to generate summary: Prompt template not found", fs, Calls.zero,
      [(.error, "Failed to generate summary for " ++ vid)]⟩
  else
    match o.sm with
    | .ok text =>
      ⟨.ok (vid ++ ".json"), { fs with summary := Option.some text }, ⟨0, 0, 0, 1⟩,
        [(.info, "Calling Gemini API for video " ++ vid),
         (.debug, "Gemini raw response"),
         (.info, "Summary generated and saved for " ++ vid)]⟩
    | .err m =>
      ⟨.error ("Failed to generate summary: " ++ m), fs, ⟨0, 0, 0, 1⟩,
        [(.info, "Calling Gemini API for video " ++ vid),
         (.error, "Failed to generate summary for " ++ vid ++ ": " ++ m)]⟩

/-- `ensure_video_content`: if `is_video_downloaded` locates the media file
the whole pipeline is skipped; otherwise the four stages run in order
(download, transcript, metadata, summary), any raise from download,
metadata or summary aborts the run with a wrapped error, and the transcript
stage never aborts. -/
def ensure_video_content (vid : String) (fs : FS) (o : Oracle) : StageResult Unit :=
  if is_video_downloaded fs then
    ⟨.ok (), fs, Calls.zero, [(.info, "Content already exists. Skipping download.")]⟩
  else
    let d := download_video vid fs o
    match d.res with
    | .error m =>
      ⟨.error ("Failed to ensure video content: " ++ m), d.fs, d.calls,
        d.logs ++ [(.error, "Exception in ensure_video_content for " ++ vid)]⟩
    | .ok _ =>
      let t := download_transcript vid d.fs o
      let md := fetch_metadata vid t.fs o
      match md.res with
      | .error m =>
        ⟨.error ("Failed to ensure video content: " ++ m), md.fs,
          (d.calls.add t.calls).add md.calls,
          d.logs ++ t.logs ++ md.logs ++
            [(.error, "Exception in ensure_video_content for " ++ vid)]⟩
      | .ok _ =>
        let s := generate_summary vid md.fs o
        match s.res with
        | .error m =>
          ⟨.error ("Failed to ensure video content: " ++ m), s.fs,
            ((d.calls.add t.calls).add md.calls).add s.calls,
            d.logs ++ t.logs ++ md.logs ++ s.logs ++
              [(.error, "Exception in ensure_video_content for " ++ vid)]⟩
        | .ok _ =>
          ⟨.ok (), s.fs, ((d.calls.add t.calls).add md.calls).add s.calls,
            d.logs ++ t.logs ++ md.logs ++ s.logs⟩

/-- The `summarize_youtube_video` tool: run `ensure_video_content`; if the
summary file is still absent afterwards, warn and call `generate_summary`
directly; then read and return the summary.  Errors become an `isError`
response rather than a raise. -/
def summarize_youtube_video (vid : String) (fs : FS) (o : Oracle) : StageResult Unit :=
  let r := ensure_video_content vid fs o
  match r.res with
  | .error m => ⟨.error m, r.fs, r.calls, r.logs⟩
  | .ok _ =>
    if r.fs.summary.isSome then ⟨.ok (), r.fs, r.calls, r.logs⟩
    else
      let g := generate_summary vid r.fs o
      match g.res with
      | .error m =>
        ⟨.error m, g.fs, r.calls.add g.calls,
          r.logs ++ [(.warning, "Summary not found for " ++ vid ++ ". Generating now.")] ++ g.logs⟩
      | .ok _ =>
        ⟨.ok (), g.fs, r.calls.add g.calls,
          r.logs ++ [(.warning, "Summary not found for " ++ vid ++ ". Generating now.")] ++ g.logs⟩

/-- The artifact-slot invariant of the spec's data model: presence of the
summary artifact implies presence of the metadata and media artifacts. -/
def SlotInv (fs : FS) : Prop := fs.summary.isSome → fs.metadata = true ∧ fs.media = true

/-! ## Concrete fixtures used by witnesses and counterexamples -/

/-- A `ToolCallExecutionEvent` whose payload flattens to "out". -/
def evExecOut : Event :=
  ⟨"ToolCallExecutionEvent(source=assistant)", Option.some (.dict [("content", .str "out")])⟩

/-- A `ToolCallSummaryMessage` whose payload also flattens to "out". -/
def evSummaryOut : Event :=
  ⟨"ToolCallSummaryMessage(source=assistant)", Option.some (.dict [("content", .str "out")])⟩

/-- Stream A's tool-result event (identical flattened text to stream B's). -/
def evToolA : Event :=
  ⟨"ToolCallExecutionEvent(source=streamA)", Option.some (.dict [("content", .str "shared result")])⟩

/-- Stream B's tool-result event (identical flattened text to stream A's). -/
def evToolB : Event :=
  ⟨"ToolCallExecutionEvent(source=streamB)", Option.some (.dict [("content", .str "shared result")])⟩

/-- Empty item state: no artifact present. -/
def fsEmpty : FS := ⟨false, false, false, Option.none⟩

/-- Collaborators all succeed. -/
def oAllOk : Oracle := ⟨.ok, .ok, .ok, .ok "the summary", true, true⟩

/-- First-run collaborators for the resume counterexample: download succeeds,
transcript unavailable, metadata raises. -/
def oMdFails : Oracle := ⟨.ok, .unavailable "disabled", .err "boom", .ok "the summary", true, true⟩

/-- Second-run collaborators for the resume counterexample: everything would
succeed if invoked. -/
def oMdOk : Oracle := ⟨.ok, .unavailable "disabled", .ok, .ok "the summary", true, true⟩

/-- Item state for the summary-fallback counterexample: media and metadata
present, summary absent. -/
def fsReadyForSummary : FS := ⟨true, false, true, Option.none⟩

/-- Collaborators for the summary-fallback counterexample: the generation
collaborator returns plain prose, not structured data. -/
def oPlainText : Oracle := ⟨.ok, .ok, .ok, .ok "hello world", true, true⟩

/-- Connector oracle failing on attempts 1 and 2 and succeeding on 3. -/
def oracleThirdTry : Nat → RetryingMCPClient.AttemptOut :=
  fun i => if i < 3 then .fail ("f" ++ toString i) else .ok ["toolA"]

/-- Connector oracle failing on every attempt. -/
def oracleAlwaysFail : Nat → RetryingMCPClient.AttemptOut :=
  fun i => .fail ("e" ++ toString i)

/-- Connector oracle succeeding immediately with an empty capability list. -/
def oracleEmptyOk : Nat → RetryingMCPClient.AttemptOut := fun _ => .ok []

/-! ## Helper lemmas about `clean_result` -/

theorem cleanSeq_eq_joinNL : ∀ xs, cleanSeq xs = joinNL (xs.map clean_result)
  | [] => rfl
  | [x] => rfl
  | x :: y :: rest => by
    rw [cleanSeq]
    rw [cleanSeq_eq_joinNL (y :: rest)]
    rfl

theorem cleanDict_content_list (full : List (String × PyVal)) :
    ∀ es xs, dlookup es "content" = Option.some (.list xs) →
      cleanDict full es = joinNL (xs.map clean_result) := by
  intro es
  induction es with
  | nil => intro xs h; simp [dlookup] at h
  | cons e rest ih =>
    intro xs h
    obtain ⟨k, v⟩ := e
    rw [cleanDict]
    by_cases hk : k = "content"
    · subst hk
      rw [dlookup] at h
      simp at h
      subst h
      simp [cleanContentVal, cleanSeq_eq_joinNL]
    · rw [dlookup] at h
      simp [hk] at h ⊢
      exact ih xs h

theorem cleanDict_content_scalar (full : List (String × PyVal)) :
    ∀ es v, dlookup es "content" = Option.some v → (∀ xs, v ≠ PyVal.list xs) →
      cleanDict full es = pyStr v := by
  intro es
  induction es with
  | nil => intro v h _; simp [dlookup] at h
  | cons e rest ih =>
    intro v h hnl
    obtain ⟨k, w⟩ := e
    rw [cleanDict]
    by_cases hk : k = "content"
    · subst hk
      rw [dlookup] at h
      simp at h
      subst h
      simp
      cases w with
      | list xs => exact absurd rfl (hnl xs)
      | str s => rfl
      | int n => rfl
      | bool b => rfl
      | none => rfl
      | dict es2 => rfl
    · rw [dlookup] at h
      simp [hk] at h ⊢
      exact ih v h hnl

theorem cleanDict_no_content (full : List (String × PyVal)) :
    ∀ es, dlookup es "content" = Option.none →
      cleanDict full es = dictTextOrMembers full := by
  intro es
  induction es with
  | nil => intro _; rfl
  | cons e rest ih =>
    intro h
    obtain ⟨k, w⟩ := e
    rw [cleanDict]
    rw [dlookup] at h
    by_cases hk : k = "content"
    · simp [hk] at h
    · simp [hk] at h ⊢
      exact ih h

/-! ## Helper lemmas about `log_event` -/

theorem log_event_exec (p : Bool) (last : Option String) (e : Event)
    (h : isExecBranch e = true) :
    log_event p last e =
      if last = Option.some (cleanOf e) then ⟨last, [], []⟩
      else emitStep p (Option.some (cleanOf e)) ("📡 " ++ cleanOf e) := by
  simp only [isExecBranch, Bool.and_eq_true, Bool.not_eq_true'] at h
  obtain ⟨⟨h1, h2⟩, h3⟩ := h
  simp [log_event, h1, h2, h3]

theorem log_event_summary (p : Bool) (last : Option String) (e : Event)
    (h : isSummaryBranch e = true) :
    log_event p last e =
      if last = Option.some (cleanOf e) then ⟨last, [], []⟩
      else emitStep p (Option.some (cleanOf e)) ("✅ " ++ cleanOf e) := by
  simp only [isSummaryBranch, Bool.and_eq_true, Bool.not_eq_true'] at h
  obtain ⟨⟨⟨h1, h2⟩, h3⟩, h4⟩ := h
  simp [log_event, h1, h2, h3, h4]

theorem log_event_tool_last (p : Bool) (last : Option String) (e : Event)
    (h : isExecBranch e = true ∨ isSummaryBranch e = true) :
    (log_event p last e).last = Option.some (cleanOf e) := by
  rcases h with h | h
  · rw [log_event_exec p last e h]
    by_cases hl : last = Option.some (cleanOf e) <;> simp [hl, emitStep]
  · rw [log_event_summary p last e h]
    by_cases hl : last = Option.some (cleanOf e) <;> simp [hl, emitStep]

/-! ## C5 — flattening correctness of `clean_result` -/

/-- C5: `clean_result` applies the recursive flattening rules in order — a
mapping with a `content` sequence flattens its elements recursively joined by
newline; a mapping with scalar `content` stringifies it; else a mapping with
`text` stringifies it; else a mapping joins its string-valued members with
newline; a sequence flattens recursively joined by newline; a string is
trimmed; anything else is stringified — and for the payload
`{"content": [{"text": "a"}, {"text": "b"}]}` the classifier yields
`cleanText = "a\nb"`. -/
theorem C5_flattening_correctness :
    (∀ (es : List (String × PyVal)) (xs : List PyVal),
        dlookup es "content" = Option.some (.list xs) →
        clean_result (.dict es) = joinNL (xs.map clean_result)) ∧
    (∀ (es : List (String × PyVal)) (v : PyVal),
        dlookup es "content" = Option.some v → (∀ xs, v ≠ PyVal.list xs) →
        clean_result (.dict es) = pyStr v) ∧
    (∀ (es : List (String × PyVal)) (v : PyVal),
        dlookup es "content" = Option.none → dlookup es "text" = Option.some v →
        clean_result (.dict es) = pyStr v) ∧
    (∀ es : List (String × PyVal),
        dlookup es "content" = Option.none → dlookup es "text" = Option.none →
        clean_result (.dict es) = joinNL (stringMembers es)) ∧
    (∀ xs : List PyVal, clean_result (.list xs) = joinNL (xs.map clean_result)) ∧
    (∀ s : String, clean_result (.str s) = pyStrip s) ∧
    ((∀ n : Int, clean_result (.int n) = pyStr (.int n)) ∧
     (∀ b : Bool, clean_result (.bool b) = pyStr (.bool b)) ∧
     clean_result PyVal.none = pyStr PyVal.none) ∧
    (∀ r : String,
        cleanOf ⟨r, Option.some (.dict
          [("content", .list [.dict [("text", .str "a")], .dict [("text", .str "b")]])])⟩
          = "a\nb") := by
  refine ⟨?_, ?_, ?_, ?_, ?_, ?_, ⟨fun n => rfl, fun b => rfl, rfl⟩, fun r => rfl⟩
  · intro es xs h
    rw [clean_result]
    exact cleanDict_content_list es es xs h
  · intro es v h hnl
    rw [clean_result]
    exact cleanDict_content_scalar es es v h hnl
  · intro es v h1 h2
    rw [clean_result]
    rw [cleanDict_no_content es es h1]
    simp [dictTextOrMembers, h2]
  · intro es h1 h2
    rw [clean_result]
    rw [cleanDict_no_content es es h1]
    simp [dictTextOrMembers, h2]
  · intro xs
    rw [clean_result]
    exact cleanSeq_eq_joinNL xs
  · intro s
    rfl

/-- C5 witness: the hypothesized flattening rules of
`C5_flattening_correctness` instantiated at concrete payloads. -/
theorem C5_flattening_correctness_witness :
    (dlookup [("content", PyVal.list [.str "x"])] "content"
        = Option.some (PyVal.list [.str "x"]) ∧
      clean_result (.dict [("content", PyVal.list [.str "x"])])
        = joinNL ([PyVal.str "x"].map clean_result)) ∧
    (dlookup [("content", PyVal.str "z")] "content" = Option.some (PyVal.str "z") ∧
      clean_result (.dict [("content", PyVal.str "z")]) = pyStr (.str "z")) ∧
    (dlookup [("text", PyVal.str "t")] "content" = Option.none ∧
      dlookup [("text", PyVal.str "t")] "text" = Option.some (PyVal.str "t") ∧
      clean_result (.dict [("text", PyVal.str "t")]) = pyStr (.str "t")) ∧
    (dlookup [("a", PyVal.str "u"), ("b", PyVal.int 7)] "content" = Option.none ∧
      dlookup [("a", PyVal.str "u"), ("b", PyVal.int 7)] "text" = Option.none ∧
      clean_result (.dict [("a", PyVal.str "u"), ("b", PyVal.int 7)])
        = joinNL (stringMembers [("a", PyVal.str "u"), ("b", PyVal.int 7)])) := by
  refine ⟨⟨rfl, ?_⟩, ⟨rfl, ?_⟩, ⟨rfl, rfl, ?_⟩, ⟨rfl, rfl, ?_⟩⟩
  · exact C5_flattening_correctness.1 _ _ rfl
  · exact C5_flattening_correctness.2.1 _ _ rfl (fun xs h => PyVal.noConfusion h)
  · exact C5_flattening_correctness.2.2.1 _ _ rfl rfl
  · exact C5_flattening_correctness.2.2.2.1 _ rfl rfl

/-! ## C4 — shared-slot deduplication of tool results in `log_event` -/

/-- C4: events reaching the `ToolCallExecutionEvent` or
`ToolCallSummaryMessage` arms share the one `_last_tool_result` slot: when
the event's flattened text equals the slot, both the console print and the
durable log write are suppressed; otherwise the slot is updated and the
message is emitted with the kind-specific marker ("📡 " resp. "✅ "); in
particular an equal-text tool event following a tool event of either kind is
fully suppressed, and two consecutive `ToolCallExecutionEvent`s with
identical flattened text produce exactly one console line and one log
line. -/
theorem C4_tool_result_dedup :
    (∀ (last : Option String) (e : Event), isExecBranch e = true →
        last = Option.some (cleanOf e) → log_event true last e = ⟨last, [], []⟩) ∧
    (∀ (last : Option String) (e : Event), isExecBranch e = true →
        last ≠ Option.some (cleanOf e) →
        log_event true last e =
          ⟨Option.some (cleanOf e), ["\n" ++ ("📡 " ++ cleanOf e)], ["📡 " ++ cleanOf e]⟩) ∧
    (∀ (last : Option String) (e : Event), isSummaryBranch e = true →
        last = Option.some (cleanOf e) → log_event true last e = ⟨last, [], []⟩) ∧
    (∀ (last : Option String) (e : Event), isSummaryBranch e = true →
        last ≠ Option.some (cleanOf e) →
        log_event true last e =
          ⟨Option.some (cleanOf e), ["\n" ++ ("✅ " ++ cleanOf e)], ["✅ " ++ cleanOf e]⟩) ∧
    (∀ (last : Option String) (e1 e2 : Event),
        (isExecBranch e1 = true ∨ isSummaryBranch e1 = true) →
        (isExecBranch e2 = true ∨ isSummaryBranch e2 = true) →
        cleanOf e2 = cleanOf e1 →
        (log_event true (log_event true last e1).last e2).console = [] ∧
        (log_event true (log_event true last e1).last e2).logLines = []) ∧
    (∀ (last : Option String) (e1 e2 : Event), isExecBranch e1 = true →
        isExecBranch e2 = true → cleanOf e1 = cleanOf e2 →
        last ≠ Option.some (cleanOf e1) →
        (runLog true last [e1, e2]).console = ["\n" ++ ("📡 " ++ cleanOf e1)] ∧
        (runLog true last [e1, e2]).logLines = ["📡 " ++ cleanOf e1]) := by
  have suppress : ∀ (last : Option String) (e : Event),
      (isExecBranch e = true ∨ isSummaryBranch e = true) →
      last = Option.some (cleanOf e) → log_event true last e = ⟨last, [], []⟩ := by
    intro last e h hl
    rcases h with h | h
    · rw [log_event_exec true last e h]; simp [hl]
    · rw [log_event_summary true last e h]; simp [hl]
  refine ⟨fun last e h hl => suppress last e (Or.inl h) hl, ?_,
      fun last e h hl => suppress last e (Or.inr h) hl, ?_, ?_, ?_⟩
  · intro last e h hl
    rw [log_event_exec true last e h]
    simp [hl, emitStep]
  · intro last e h hl
    rw [log_event_summary true last e h]
    simp [hl, emitStep]
  · intro last e1 e2 h1 h2 hc
    have hlast := log_event_tool_last true last e1 h1
    have : (log_event true (log_event true last e1).last e2) =
        ⟨(log_event true last e1).last, [], []⟩ := by
      apply suppress _ _ h2
      rw [hlast, hc]
    rw [this]
    exact ⟨rfl, rfl⟩
  · intro last e1 e2 h1 h2 hc hne
    have step1 : log_event true last e1 =
        ⟨Option.some (cleanOf e1), ["\n" ++ ("📡 " ++ cleanOf e1)], ["📡 " ++ cleanOf e1]⟩ := by
      rw [log_event_exec true last e1 h1]
      simp [hne, emitStep]
    have step2 : log_event true (Option.some (cleanOf e1)) e2 =
        ⟨Option.some (cleanOf e1), [], []⟩ := by
      apply suppress _ _ (Or.inl h2)
      rw [hc]
    simp [runLog, step1, step2]

/-- C4 witness: two consecutive concrete `ToolCallExecutionEvent`s with
identical flattened text "out" yield exactly one console line and one log
line, and a `ToolCallExecutionEvent` directly after an equal-text
`ToolCallSummaryMessage` is fully suppressed through the shared slot. -/
theorem C4_tool_result_dedup_witness :
    (isExecBranch evExecOut = true ∧ isSummaryBranch evSummaryOut = true ∧
      cleanOf evExecOut = cleanOf evExecOut ∧
      Option.none ≠ Option.some (cleanOf evExecOut) ∧
      (runLog true Option.none [evExecOut, evExecOut]).console
          = ["\n" ++ ("📡 " ++ cleanOf evExecOut)] ∧
      (runLog true Option.none [evExecOut, evExecOut]).logLines
          = ["📡 " ++ cleanOf evExecOut]) ∧
    (cleanOf evExecOut = cleanOf evSummaryOut ∧
      (log_event true (log_event true Option.none evSummaryOut).last evExecOut).console = [] ∧
      (log_event true (log_event true Option.none evSummaryOut).last evExecOut).logLines = []) := by
  have he : isExecBranch evExecOut = true := by decide
  have hs : isSummaryBranch evSummaryOut = true := by decide
  have hc : cleanOf evExecOut = cleanOf evSummaryOut := by decide
  have hne : Option.none ≠ Option.some (cleanOf evExecOut) := by decide
  refine ⟨⟨he, hs, rfl, hne, ?_⟩, ⟨hc, ?_⟩⟩
  · exact C4_tool_result_dedup.2.2.2.2.2 Option.none evExecOut evExecOut he he rfl hne
  · exact C4_tool_result_dedup.2.2.2.2.1 Option.none evSummaryOut evExecOut
      (Or.inr hs) (Or.inl he) hc.symm

/-! ## C9 — the dedup slot is shared across streams, not per-stream -/

/-- C9 counterexample: the dedup state is the single hidden
`log_event._last_tool_result` slot shared by every caller in the process.
Stream B's lone tool event emits one console line and one log line when B is
processed in isolation, but in an interleaved run the same event is fully
suppressed solely because stream A's equal-text event ran first — so the
suppression decisions for one stream are affected by the events of the other
stream, refuting per-stream isolation. -/
theorem C9_counterexample :
    (runLog true Option.none [evToolB]).console = ["\n" ++ "📡 shared result"] ∧
    (runLog true Option.none [evToolB]).logLines = ["📡 shared result"] ∧
    (runLog true Option.none [evToolA, evToolB]).console = ["\n" ++ "📡 shared result"] ∧
    (runLog true Option.none [evToolA, evToolB]).logLines = ["📡 shared result"] := by
  decide

/-- C9 amended: the dedup slot is one process-wide cell attached to the
classifier function itself, shared by all conversation streams: after any
tool-result event (of either kind, from any stream) is processed, a
tool-result event from any stream whose flattened text matches it is
suppressed entirely — cross-stream suppression instead of per-stream
isolation. -/
theorem C9_amended_shared_slot (last : Option String) (e1 e2 : Event)
    (h1 : isExecBranch e1 = true ∨ isSummaryBranch e1 = true)
    (h2 : isExecBranch e2 = true ∨ isSummaryBranch e2 = true)
    (h3 : cleanOf e2 = cleanOf e1) :
    (log_event true (log_event true last e1).last e2).console = [] ∧
    (log_event true (log_event true last e1).last e2).logLines = [] ∧
    (log_event true (log_event true last e1).last e2).last = Option.some (cleanOf e2) := by
  have hlast := log_event_tool_last true last e1 h1
  have hsup : log_event true (log_event true last e1).last e2 =
      ⟨(log_event true last e1).last, [], []⟩ := by
    rcases h2 with h | h
    · rw [log_event_exec true _ e2 h]
      simp [hlast, h3]
    · rw [log_event_summary true _ e2 h]
      simp [hlast, h3]
  rw [hsup, hlast, h3]
  exact ⟨rfl, rfl, rfl⟩

/-- C9 amended witness: stream A's event `evToolA` then stream B's equal-text
event `evToolB` — B is suppressed by the shared slot. -/
theorem C9_amended_shared_slot_witness :
    ((isExecBranch evToolA = true ∨ isSummaryBranch evToolA = true) ∧
      (isExecBranch evToolB = true ∨ isSummaryBranch evToolB = true) ∧
      cleanOf evToolB = cleanOf evToolA) ∧
    (log_event true (log_event true Option.none evToolA).last evToolB).console = [] ∧
    (log_event true (log_event true Option.none evToolA).last evToolB).logLines = [] ∧
    (log_event true (log_event true Option.none evToolA).last evToolB).last
      = Option.some (cleanOf evToolB) := by
  have h1 : isExecBranch evToolA = true := by decide
  have h2 : isExecBranch evToolB = true := by decide
  exact ⟨⟨Or.inl h1, Or.inl h2, rfl⟩,
    C9_amended_shared_slot Option.none evToolA evToolB (Or.inl h1) (Or.inl h2) rfl⟩

/-! ## Helper lemmas about the retrying connector -/

theorem connectGo_succeeds {α : Type} (oracle : Nat → RetryingMCPClient.AttemptOut)
    (delay : α) :
    ∀ (n attempt rest : Nat) (caps : List String), n < rest →
      (∀ i, attempt ≤ i → i < attempt + n → ∃ e, oracle i = .fail e) →
      oracle (attempt + n) = .ok caps →
      RetryingMCPClient.connectGo oracle delay attempt rest =
        (Option.some (.ok caps), n + 1, List.replicate n delay) := by
  intro n
  induction n with
  | zero =>
    intro attempt rest caps hrest _ hok
    obtain ⟨r, rfl⟩ : ∃ r, rest = r + 1 := ⟨rest - 1, by omega⟩
    simp only [Nat.add_zero] at hok
    simp [RetryingMCPClient.connectGo, hok]
  | succ m ih =>
    intro attempt rest caps hrest hfail hok
    obtain ⟨r, rfl⟩ : ∃ r, rest = r + 1 := ⟨rest - 1, by omega⟩
    obtain ⟨e, he⟩ := hfail attempt (Nat.le_refl _) (by omega)
    have hr : r ≠ 0 := by omega
    have hrec := ih (attempt + 1) r caps (by omega)
      (fun i hi1 hi2 => hfail i (by omega) (by omega))
      (by rw [show attempt + 1 + m = attempt + (m + 1) by omega]; exact hok)
    simp [RetryingMCPClient.connectGo, he, hr, hrec, List.replicate_succ]

theorem connectGo_exhausts {α : Type} (oracle : Nat → RetryingMCPClient.AttemptOut)
    (delay : α) (es : Nat → String) :
    ∀ (rest attempt : Nat), 1 ≤ rest →
      (∀ i, attempt ≤ i → i < attempt + rest → oracle i = .fail (es i)) →
      RetryingMCPClient.connectGo oracle delay attempt rest =
        (Option.some (.error (es (attempt + rest - 1))), rest,
          List.replicate (rest - 1) delay) := by
  intro rest
  induction rest with
  | zero => intro attempt h; omega
  | succ r ih =>
    intro attempt _ hfail
    have he : oracle attempt = .fail (es attempt) :=
      hfail attempt (Nat.le_refl _) (by omega)
    by_cases hr : r = 0
    · subst hr
      simp [RetryingMCPClient.connectGo, he]
    · have hrec := ih (attempt + 1) (by omega)
        (fun i hi1 hi2 => hfail i (by omega) (by omega))
      have harith : attempt + 1 + r - 1 = attempt + (r + 1) - 1 := by omega
      rw [harith] at hrec
      have hrepl : delay :: List.replicate (r - 1) delay = List.replicate r delay := by
        rw [← List.replicate_succ]
        congr 1
        omega
      simp [RetryingMCPClient.connectGo, he, hr, hrec, hrepl]

/-! ## C3 — retry bound of the connector -/

/-- C3: with `max_retries = n`, if the underlying capability discovery fails
on the first `k - 1` attempts and succeeds on attempt `k ≤ n`, `connect`
makes exactly `k` underlying calls and returns the capability list
immediately; if all `n` attempts fail it raises, carrying the last
underlying error, after exactly `n` calls — with a fixed `retry_delay` wait
between consecutive failed attempts only (`k - 1` resp. `n - 1` identical
waits, none after the final failure, no exponential backoff). -/
theorem C3_retry_bound {α : Type} (oracle : Nat → RetryingMCPClient.AttemptOut)
    (maxRetries : Nat) (delay : α) :
    (∀ (k : Nat) (caps : List String), 1 ≤ k → k ≤ maxRetries →
        (∀ i, 1 ≤ i → i < k → ∃ e, oracle i = .fail e) →
        oracle k = .ok caps →
        RetryingMCPClient.connect oracle maxRetries delay =
          (Option.some (.ok caps), k, List.replicate (k - 1) delay)) ∧
    (∀ es : Nat → String, 1 ≤ maxRetries →
        (∀ i, 1 ≤ i → i ≤ maxRetries → oracle i = .fail (es i)) →
        RetryingMCPClient.connect oracle maxRetries delay =
          (Option.some (.error (es maxRetries)), maxRetries,
            List.replicate (maxRetries - 1) delay)) := by
  constructor
  · intro k caps hk1 hkn hfail hok
    have h := connectGo_succeeds oracle delay (k - 1) 1 maxRetries caps (by omega)
      (fun i hi1 hi2 => hfail i hi1 (by omega))
      (by rw [show 1 + (k - 1) = k by omega]; exact hok)
    rw [show k - 1 + 1 = k by omega] at h
    rw [RetryingMCPClient.connect, h]
  · intro es hn hfail
    have h := connectGo_exhausts oracle delay es maxRetries 1 hn
      (fun i hi1 hi2 => hfail i hi1 (by omega))
    rw [show 1 + maxRetries - 1 = maxRetries by omega] at h
    rw [RetryingMCPClient.connect, h]

/-- C3 witness: with `max_retries = 3` and delay 2, an oracle failing on
attempts 1–2 and succeeding on 3 yields exactly 3 calls, the capability
list, and two delay-2 waits; an always-failing oracle yields the error of
attempt 3 after exactly 3 calls and two waits. -/
theorem C3_retry_bound_witness :
    ((1 : Nat) ≤ 3 ∧ (3 : Nat) ≤ 3 ∧ oracleThirdTry 3 = .ok ["toolA"] ∧
      RetryingMCPClient.connect oracleThirdTry 3 (2 : Nat) =
        (Option.some (.ok ["toolA"]), 3, List.replicate 2 (2 : Nat))) ∧
    ((1 : Nat) ≤ 3 ∧
      RetryingMCPClient.connect oracleAlwaysFail 3 (2 : Nat) =
        (Option.some (.error ("e" ++ toString (3 : Nat))), 3,
          List.replicate 2 (2 : Nat))) := by
  constructor
  · refine ⟨by omega, by omega, rfl, ?_⟩
    exact (C3_retry_bound oracleThirdTry 3 (2 : Nat)).1 3 ["toolA"] (by omega) (by omega)
      (fun i hi1 hi2 => ⟨"f" ++ toString i, by simp [oracleThirdTry, hi2]⟩) rfl
  · refine ⟨by omega, ?_⟩
    exact (C3_retry_bound oracleAlwaysFail 3 (2 : Nat)).2 (fun i => "e" ++ toString i)
      (by omega) (fun i _ _ => rfl)

/-! ## C10 — empty capability list is treated as not connected -/

/-- C10: if `connect` succeeds but the discovered capability list is empty,
a subsequent `get_tools` call raises the not-connected error despite the
successful connection, because the guard tests truthiness of the cached
list (`if not self.tools`) rather than whether a connection was
established. -/
theorem C10_empty_tools_not_connected {α : Type} (tools0 : Option (List String))
    (oracle : Nat → RetryingMCPClient.AttemptOut) (maxRetries : Nat) (delay : α)
    (h : (RetryingMCPClient.connect oracle maxRetries delay).1 = Option.some (.ok [])) :
    RetryingMCPClient.get_tools
        (RetryingMCPClient.toolsAfterConnect tools0 oracle maxRetries delay) =
      .error "Not connected to MCP server. Call connect() first." := by
  rw [RetryingMCPClient.toolsAfterConnect, h]
  rfl

/-- C10 witness: an oracle that immediately returns an empty capability
list — `connect` succeeds, yet `get_tools` raises the not-connected
error. -/
theorem C10_empty_tools_not_connected_witness :
    (RetryingMCPClient.connect oracleEmptyOk 3 (2 : Nat)).1 = Option.some (.ok []) ∧
    RetryingMCPClient.get_tools
        (RetryingMCPClient.toolsAfterConnect Option.none oracleEmptyOk 3 (2 : Nat)) =
      .error "Not connected to MCP server. Call connect() first." := by
  refine ⟨rfl, ?_⟩
  exact C10_empty_tools_not_connected Option.none oracleEmptyOk 3 (2 : Nat) rfl

/-! ## Helper lemmas about the acquisition pipeline -/

theorem ensure_media_skip (vid : String) (fs : FS) (o : Oracle) (h : fs.media = true) :
    ensure_video_content vid fs o =
      ⟨.ok (), fs, Calls.zero, [(.info, "Content already exists. Skipping download.")]⟩ := by
  simp [ensure_video_content, is_video_downloaded, h]

theorem download_video_spec (vid : String) (fs : FS) (o : Oracle) :
    ((download_video vid fs o).res = .ok (vid ++ ".mkv") ∧
      (download_video vid fs o).fs = ⟨true, fs.transcript, fs.metadata, fs.summary⟩) ∨
    ((∀ p, (download_video vid fs o).res ≠ .ok p) ∧ (download_video vid fs o).fs = fs) := by
  obtain ⟨me, tr, md, sm⟩ := fs
  obtain ⟨dl, trc, mdo, smo, yt, tmpl⟩ := o
  cases yt <;> cases me <;> cases dl <;> simp [download_video]

theorem download_transcript_fs (vid : String) (fs : FS) (o : Oracle) :
    (download_transcript vid fs o).fs.media = fs.media ∧
    (download_transcript vid fs o).fs.metadata = fs.metadata ∧
    (download_transcript vid fs o).fs.summary = fs.summary := by
  obtain ⟨me, tr, md, sm⟩ := fs
  obtain ⟨dl, trc, mdo, smo, yt, tmpl⟩ := o
  cases tr <;> cases trc <;> simp [download_transcript]

theorem fetch_metadata_spec (vid : String) (fs : FS) (o : Oracle) :
    ((fetch_metadata vid fs o).res = .ok (vid ++ "_metadata.json") ∧
      (fetch_metadata vid fs o).fs = ⟨fs.media, fs.transcript, true, fs.summary⟩) ∨
    ((∀ p, (fetch_metadata vid fs o).res ≠ .ok p) ∧ (fetch_metadata vid fs o).fs = fs) := by
  obtain ⟨me, tr, md, sm⟩ := fs
  obtain ⟨dl, trc, mdo, smo, yt, tmpl⟩ := o
  cases md <;> cases mdo <;> simp [fetch_metadata]

theorem generate_summary_spec (vid : String) (fs : FS) (o : Oracle) :
    (∃ t, (generate_summary vid fs o).res = .ok (vid ++ ".json") ∧
      (generate_summary vid fs o).fs = ⟨fs.media, fs.transcript, fs.metadata, Option.some t⟩) ∨
    ((∀ p, (generate_summary vid fs o).res ≠ .ok p) ∧ (generate_summary vid fs o).fs = fs) := by
  obtain ⟨me, tr, md, sm⟩ := fs
  obtain ⟨dl, trc, mdo, smo, yt, tmpl⟩ := o
  cases sm <;> cases md <;> cases tmpl <;> cases smo <;> simp [generate_summary]

theorem generate_summary_slot_inv (vid : String) (fs : FS) (o : Oracle)
    (hmedia : fs.media = true) (h : SlotInv fs) :
    SlotInv (generate_summary vid fs o).fs := by
  obtain ⟨me, tr, md, sm⟩ := fs
  obtain ⟨dl, trc, mdo, smo, yt, tmpl⟩ := o
  cases md <;> cases smo <;> cases tmpl <;> cases sm <;>
    simp_all [generate_summary, SlotInv]

theorem ensure_main (vid : String) (fs : FS) (o : Oracle) :
    ((ensure_video_content vid fs o).res = .ok () →
      (ensure_video_content vid fs o).fs.media = true) ∧
    (SlotInv fs → SlotInv (ensure_video_content vid fs o).fs) := by
  by_cases hm : fs.media = true
  · rw [ensure_media_skip vid fs o hm]
    exact ⟨fun _ => hm, fun h => h⟩
  have hm' : fs.media = false := by revert hm; cases fs.media <;> simp
  simp only [ensure_video_content, is_video_downloaded, hm', Bool.false_eq_true, if_false]
  cases hdres : (download_video vid fs o).res with
  | error m =>
    obtain ⟨_, hdf⟩ := (download_video_spec vid fs o).resolve_left
      (fun hl => by rw [hdres] at hl; exact absurd hl.1 (by simp))
    simp only [hdres, hdf]
    refine ⟨fun hok => ?_, fun h => h⟩
    simp at hok
  | ok p =>
    obtain ⟨hdr, hdf⟩ := (download_video_spec vid fs o).resolve_right
      (fun hr => hr.1 p hdres)
    simp only [hdres, hdf]
    obtain ⟨ht1, ht2, ht3⟩ :=
      download_transcript_fs vid ⟨true, fs.transcript, fs.metadata, fs.summary⟩ o
    cases hmres : (fetch_metadata vid
        (download_transcript vid ⟨true, fs.transcript, fs.metadata, fs.summary⟩ o).fs o).res with
    | error m2 =>
      obtain ⟨_, hmf⟩ := (fetch_metadata_spec vid
          (download_transcript vid ⟨true, fs.transcript, fs.metadata, fs.summary⟩ o).fs o).resolve_left
        (fun hl => by rw [hmres] at hl; exact absurd hl.1 (by simp))
      simp only [hmres, hmf]
      refine ⟨fun hok => ?_, fun h hsome => ?_⟩
      · simp at hok
      · rw [ht3] at hsome
        have hme := (h hsome).2
        rw [hm'] at hme
        cases hme
    | ok p2 =>
      obtain ⟨hmr, hmf⟩ := (fetch_metadata_spec vid
          (download_transcript vid ⟨true, fs.transcript, fs.metadata, fs.summary⟩ o).fs o).resolve_right
        (fun hr => hr.1 p2 hmres)
      simp only [hmres, hmf, ht1, ht2, ht3]
      cases hgres : (generate_summary vid
          (⟨true, (download_transcript vid ⟨true, fs.transcript, fs.metadata, fs.summary⟩ o).fs.transcript,
            true, fs.summary⟩ : FS) o).res with
      | error m3 =>
        obtain ⟨_, hgf⟩ := (generate_summary_spec vid
            (⟨true, (download_transcript vid ⟨true, fs.transcript, fs.metadata, fs.summary⟩ o).fs.transcript,
              true, fs.summary⟩ : FS) o).resolve_left
          (fun hl => by obtain ⟨t0, h1, _⟩ := hl; rw [hgres] at h1; exact absurd h1 (by simp))
        simp only [hgres, hgf]
        refine ⟨fun hok => ?_, fun _ => ?_⟩
        · simp at hok
        · intro _
          exact ⟨by simp, by simp⟩
      | ok p3 =>
        obtain ⟨t0, hgr, hgf⟩ := (generate_summary_spec vid
            (⟨true, (download_transcript vid ⟨true, fs.transcript, fs.metadata, fs.summary⟩ o).fs.transcript,
              true, fs.summary⟩ : FS) o).resolve_right
          (fun hr => hr.1 p3 hgres)
        simp only [hgres, hgf]
        refine ⟨fun _ => ?_, fun _ => ?_⟩
        · simp
        · intro _
          exact ⟨by simp, by simp⟩

theorem ensure_ok_media (vid : String) (fs : FS) (o : Oracle)
    (h : (ensure_video_content vid fs o).res = .ok ()) :
    (ensure_video_content vid fs o).fs.media = true :=
  (ensure_main vid fs o).1 h

theorem ensure_slot_inv (vid : String) (fs : FS) (o : Oracle) (h : SlotInv fs) :
    SlotInv (ensure_video_content vid fs o).fs :=
  (ensure_main vid fs o).2 h

/-! ## C1 — idempotence of the acquisition pipeline -/

/-- C1: after a pipeline invocation that completed successfully, invoking
the pipeline again with no external state change performs zero collaborator
calls (no download, transcript, metadata or summary invocation), produces
an artifact set identical to the first run's, and succeeds again. -/
theorem C1_pipeline_idempotence (vid : String) (fs : FS) (o : Oracle)
    (h : (ensure_video_content vid fs o).res = .ok ()) :
    (ensure_video_content vid (ensure_video_content vid fs o).fs o).calls = Calls.zero ∧
    (ensure_video_content vid (ensure_video_content vid fs o).fs o).fs =
      (ensure_video_content vid fs o).fs ∧
    (ensure_video_content vid (ensure_video_content vid fs o).fs o).res = .ok () := by
  have hm := ensure_ok_media vid fs o h
  rw [ensure_media_skip vid _ o hm]
  exact ⟨rfl, rfl, rfl⟩

/-- C1 witness: a fresh item with all collaborators succeeding — the first
run succeeds and the second run makes zero collaborator calls and leaves
the artifact set unchanged. -/
theorem C1_pipeline_idempotence_witness :
    (ensure_video_content "vid" fsEmpty oAllOk).res = .ok () ∧
    ((ensure_video_content "vid" (ensure_video_content "vid" fsEmpty oAllOk).fs oAllOk).calls
        = Calls.zero ∧
      (ensure_video_content "vid" (ensure_video_content "vid" fsEmpty oAllOk).fs oAllOk).fs
        = (ensure_video_content "vid" fsEmpty oAllOk).fs ∧
      (ensure_video_content "vid" (ensure_video_content "vid" fsEmpty oAllOk).fs oAllOk).res
        = .ok ()) :=
  ⟨rfl, C1_pipeline_idempotence "vid" fsEmpty oAllOk rfl⟩

/-! ## C2 — resume-from-failure does not hold: media presence skips all stages -/

/-- C2 counterexample: first run downloads the media, then the metadata
fetch raises ("boom"); the prior partial success leaves the media artifact
present and the metadata artifact absent.  The claim requires the second
run to retry the metadata fetch (the first missing stage); instead the
second run makes zero metadata-collaborator calls and leaves the metadata
artifact absent — media presence is taken as proof the whole item was
handled. -/
theorem C2_counterexample :
    (ensure_video_content "vid" fsEmpty oMdFails).res =
      .error "Failed to ensure video content: Failed to fetch video metadata: boom" ∧
    (ensure_video_content "vid" fsEmpty oMdFails).fs.media = true ∧
    (ensure_video_content "vid" fsEmpty oMdFails).fs.metadata = false ∧
    ¬(1 ≤ (ensure_video_content "vid"
        (ensure_video_content "vid" fsEmpty oMdFails).fs oMdOk).calls.md) ∧
    (ensure_video_content "vid"
        (ensure_video_content "vid" fsEmpty oMdFails).fs oMdOk).fs.metadata = false :=
  ⟨rfl, rfl, rfl, by decide, rfl⟩

/-- C2 amended: re-invoking the pipeline after a prior run that produced the
media artifact never re-invokes the download collaborator — but it does not
resume at the first missing stage either: the second run performs zero
collaborator calls of any kind (the failed metadata fetch included, whose
artifact stays absent) and leaves the artifact set unchanged, because media
presence is treated as full completion. -/
theorem C2_amended_no_resume (vid : String) (fs : FS) (o1 o2 : Oracle)
    (h : (ensure_video_content vid fs o1).fs.media = true) :
    (ensure_video_content vid (ensure_video_content vid fs o1).fs o2).calls = Calls.zero ∧
    (ensure_video_content vid (ensure_video_content vid fs o1).fs o2).fs =
      (ensure_video_content vid fs o1).fs := by
  rw [ensure_media_skip vid _ o2 h]
  exact ⟨rfl, rfl⟩

/-- C2 amended witness: the counterexample state — the first run downloaded
the media and failed at metadata; the second run makes zero collaborator
calls and changes nothing. -/
theorem C2_amended_no_resume_witness :
    (ensure_video_content "vid" fsEmpty oMdFails).fs.media = true ∧
    ((ensure_video_content "vid"
          (ensure_video_content "vid" fsEmpty oMdFails).fs oMdOk).calls = Calls.zero ∧
      (ensure_video_content "vid"
          (ensure_video_content "vid" fsEmpty oMdFails).fs oMdOk).fs =
        (ensure_video_content "vid" fsEmpty oMdFails).fs) :=
  ⟨rfl, C2_amended_no_resume "vid" fsEmpty oMdFails oMdOk rfl⟩

/-! ## C6 — transcript unavailability is tolerated -/

/-- C6: on a fresh item, a transcript-unavailable outcome is not an error —
it is logged as a warning, the transcript slot is left absent, and the
pipeline proceeds: the metadata and summary stages still run (one
collaborator call each) and the whole run completes successfully with the
transcript absent. -/
theorem C6_optional_transcript (vid m : String) (fs : FS) (o : Oracle)
    (hme : fs.media = false) (htr : fs.transcript = false) (hmd : fs.metadata = false)
    (hsm : fs.summary = Option.none) (hotr : o.tr = .unavailable m)
    (hodl : o.dl = .ok) (homd : o.md = .ok) (hosm : ∃ t, o.sm = .ok t)
    (hyt : o.ytDlpInstalled = true) (htm : o.templateExists = true) :
    (ensure_video_content vid fs o).res = .ok () ∧
    (ensure_video_content vid fs o).fs.transcript = false ∧
    (ensure_video_content vid fs o).fs.metadata = true ∧
    (ensure_video_content vid fs o).fs.summary.isSome = true ∧
    (ensure_video_content vid fs o).calls.md = 1 ∧
    (ensure_video_content vid fs o).calls.sm = 1 ∧
    (Lvl.warning, "No transcript available for " ++ vid ++ ": " ++ m) ∈
      (ensure_video_content vid fs o).logs := by
  obtain ⟨me, tr, md, sm⟩ := fs
  obtain ⟨dl, trc, mdo, smo, yt, tmpl⟩ := o
  obtain ⟨t, ht⟩ := hosm
  simp_all [ensure_video_content, is_video_downloaded, download_video,
    download_transcript, fetch_metadata, generate_summary, Calls.add, Calls.zero]

/-- C6 witness: a fresh item whose transcript collaborator reports
"disabled" while download, metadata and summary succeed. -/
theorem C6_optional_transcript_witness :
    (fsEmpty.media = false ∧ oMdOk.tr = .unavailable "disabled" ∧ oMdOk.md = .ok) ∧
    ((ensure_video_content "vid" fsEmpty oMdOk).res = .ok () ∧
      (ensure_video_content "vid" fsEmpty oMdOk).fs.transcript = false ∧
      (ensure_video_content "vid" fsEmpty oMdOk).fs.metadata = true ∧
      (ensure_video_content "vid" fsEmpty oMdOk).fs.summary.isSome = true ∧
      (ensure_video_content "vid" fsEmpty oMdOk).calls.md = 1 ∧
      (ensure_video_content "vid" fsEmpty oMdOk).calls.sm = 1 ∧
      (Lvl.warning, "No transcript available for " ++ "vid" ++ ": " ++ "disabled") ∈
        (ensure_video_content "vid" fsEmpty oMdOk).logs) :=
  ⟨⟨rfl, rfl, rfl⟩,
    C6_optional_transcript "vid" "disabled" fsEmpty oMdOk rfl rfl rfl rfl rfl rfl rfl
      ⟨"the summary", rfl⟩ rfl rfl⟩

/-! ## C7 — summary output is always persisted verbatim, with no warning -/

/-- C7 counterexample: the generation collaborator returns "hello world",
which is plain prose, not structured data.  The claim requires it to be
persisted as raw text *with a warning*; the stage persists it verbatim and
logs no warning at all (the source never attempts to parse the output — it
writes the extracted text unconditionally). -/
theorem C7_counterexample :
    (generate_summary "vid" fsReadyForSummary oPlainText).res = .ok ("vid" ++ ".json") ∧
    (generate_summary "vid" fsReadyForSummary oPlainText).fs.summary =
      Option.some "hello world" ∧
    ∀ l ∈ (generate_summary "vid" fsReadyForSummary oPlainText).logs,
      l.1 ≠ Lvl.warning :=
  ⟨rfl, rfl, by decide⟩

/-- C7 amended: the summary-generation stage persists the collaborator's
extracted output text verbatim regardless of whether it parses as
structured data, emits no warning, and never fails because the output was
not structured. -/
theorem C7_amended_raw_persistence (vid text : String) (fs : FS) (o : Oracle)
    (h1 : fs.summary = Option.none) (h2 : fs.metadata = true)
    (h3 : o.templateExists = true) (h4 : o.sm = .ok text) :
    (generate_summary vid fs o).res = .ok (vid ++ ".json") ∧
    (generate_summary vid fs o).fs.summary = Option.some text ∧
    ∀ l ∈ (generate_summary vid fs o).logs, l.1 ≠ Lvl.warning := by
  obtain ⟨me, tr, md, sm⟩ := fs
  obtain ⟨dl, trc, mdo, smo, yt, tmpl⟩ := o
  refine ⟨?_, ?_, ?_⟩ <;> simp_all [generate_summary]

/-- C7 amended witness: the "hello world" output is persisted verbatim with
no warning and the stage succeeds. -/
theorem C7_amended_raw_persistence_witness :
    (fsReadyForSummary.summary = Option.none ∧ fsReadyForSummary.metadata = true ∧
      oPlainText.templateExists = true ∧ oPlainText.sm = .ok "hello world") ∧
    ((generate_summary "v" fsReadyForSummary oPlainText).res = .ok ("v" ++ ".json") ∧
      (generate_summary "v" fsReadyForSummary oPlainText).fs.summary =
        Option.some "hello world" ∧
      ∀ l ∈ (generate_summary "v" fsReadyForSummary oPlainText).logs,
        l.1 ≠ Lvl.warning) :=
  ⟨⟨rfl, rfl, rfl, rfl⟩,
    C7_amended_raw_persistence "v" "hello world" fsReadyForSummary oPlainText rfl rfl rfl rfl⟩

/-! ## C8 — the artifact-slot invariant is preserved -/

/-- C8: every pipeline operation preserves the invariant that presence of
the summary artifact implies presence of the metadata and media artifacts:
both `ensure_video_content` (where summary generation runs only after the
download stage) and the `summarize_youtube_video` tool (whose summary
writer loads the metadata file before producing the summary) preserve
`SlotInv` for every collaborator behaviour. -/
theorem C8_slot_invariant (vid : String) (fs : FS) (o : Oracle) (h : SlotInv fs) :
    SlotInv (ensure_video_content vid fs o).fs ∧
    SlotInv (summarize_youtube_video vid fs o).fs := by
  have hinv := ensure_slot_inv vid fs o h
  refine ⟨hinv, ?_⟩
  unfold summarize_youtube_video
  cases hres : (ensure_video_content vid fs o).res with
  | error m => simpa [hres] using hinv
  | ok u =>
    cases u
    by_cases hsum : (ensure_video_content vid fs o).fs.summary.isSome
    · simp only [hres, hsum, if_true]
      exact hinv
    · have hm := ensure_ok_media vid fs o hres
      have hg := generate_summary_slot_inv vid _ o hm hinv
      cases hgr : (generate_summary vid (ensure_video_content vid fs o).fs o).res with
      | error m2 => simpa [hres, hsum, hgr] using hg
      | ok p => simpa [hres, hsum, hgr] using hg

/-- C8 witness: the empty initial state satisfies the invariant and both
operations preserve it under all-successful collaborators. -/
theorem C8_slot_invariant_witness :
    SlotInv fsEmpty ∧
    (SlotInv (ensure_video_content "vid" fsEmpty oAllOk).fs ∧
      SlotInv (summarize_youtube_video "vid" fsEmpty oAllOk).fs) :=
  ⟨fun h => by simp [fsEmpty] at h,
    C8_slot_invariant "vid" fsEmpty oAllOk (fun h => by simp [fsEmpty] at h)⟩
